import Mathlib

/-!
Verification development for the LinkedIn job-postings notification service
(`api_send_email_notification.py`).  The Python module is shallowly embedded:
pure computations become Lean functions, the effectful pipeline (database
access, token acquisition, Graph sendMail POSTs, log output) becomes explicit
data threaded through the definitions (event lists, outcome records), and
Python exceptions become `Except` values.
-/

namespace JobReport

/-- Decidable equality for `Except` results, used to evaluate the embedded
functions on concrete inputs. -/
instance {ε α : Type} [DecidableEq ε] [DecidableEq α] : DecidableEq (Except ε α) := fun x y =>
  match x, y with
  | Except.ok a, Except.ok b =>
    if h : a = b then Decidable.isTrue (by rw [h])
    else Decidable.isFalse (by intro hc; cases hc; exact h rfl)
  | Except.error a, Except.error b =>
    if h : a = b then Decidable.isTrue (by rw [h])
    else Decidable.isFalse (by intro hc; cases hc; exact h rfl)
  | Except.ok _, Except.error _ => Decidable.isFalse (by intro hc; cases hc)
  | Except.error _, Except.ok _ => Decidable.isFalse (by intro hc; cases hc)

/-- Models the Python idiom `d.get(key, default) or default`: a missing key, a
`None` value, and an empty string all fall back to the default (Python
truthiness on strings). -/
def getOr (v : Option String) (d : String) : String :=
  match v with
  | none => d
  | some s => if s = "" then d else s

/-- Python truthiness of an optional string (`if not x` is the negation):
`None` and `""` are falsy. -/
def truthyOpt : Option String → Bool
  | none => false
  | some s => s != ""

/-- `str.split(sep)` for a one-character separator, Python semantics:
`"".split(",") == [""]`, separators at the ends produce empty pieces. -/
def pySplit (sep : Char) : List Char → List (List Char)
  | [] => [[]]
  | c :: rest =>
    match pySplit sep rest with
    | [] => [[]]
    | h :: t => if c = sep then [] :: h :: t else (c :: h) :: t

def pySplitStr (sep : Char) (s : String) : List String :=
  (pySplit sep s.toList).map (fun l => String.mk l)

def isPySpace (c : Char) : Bool :=
  c = ' ' || c = '\t' || c = '\n' || c = '\r' || c.toNat = 11 || c.toNat = 12

/-- `str.strip()`: drop ASCII whitespace from both ends. -/
def pyStrip (s : String) : String :=
  String.mk (((s.toList.dropWhile isPySpace).reverse.dropWhile isPySpace).reverse)

/-- A row of the `public.karmafy_job` table, restricted to the columns the
query touches.  `ingestedAt` is a timestamp in seconds; nullable text columns
are `Option String`. -/
structure KJRow where
  company : Option String
  title : Option String
  posted_by_profile : Option String
  poster_full_name : Option String
  url : Option String
  company_url : Option String
  source : Option String
  ingestedAt : Nat
deriving DecidableEq

/-- A result row of the SELECT (a `RealDictCursor` dict with the seven
selected columns). -/
structure Job where
  company : Option String
  title : Option String
  posted_by_profile : Option String
  poster_full_name : Option String
  url : Option String
  company_url : Option String
  source : Option String
deriving DecidableEq

/-- Projection of a table row onto the selected columns. -/
def KJRow.toJob (r : KJRow) : Job :=
  { company := r.company, title := r.title, posted_by_profile := r.posted_by_profile,
    poster_full_name := r.poster_full_name, url := r.url, company_url := r.company_url,
    source := r.source }

def secondsPerDay : Nat := 86400

/-- The SQL condition `"ingestedAt" >= CURRENT_DATE AND
"ingestedAt" < CURRENT_DATE + INTERVAL \x271 day\x27`, with `CURRENT_DATE`
the day number `d` of the database server. -/
def inCurrentDay (d : Nat) (r : KJRow) : Bool :=
  decide (d * secondsPerDay ≤ r.ingestedAt) &&
    decide (r.ingestedAt < d * secondsPerDay + secondsPerDay)

/-- The SQL condition `posted_by_profile IS NOT NULL AND posted_by_profile <> \x27\x27`. -/
def posterNonEmpty (r : KJRow) : Bool :=
  match r.posted_by_profile with
  | none => false
  | some p => p != ""

/-- Rows of the current day with a non-null, non-empty poster profile
(the WHERE clause shared by the outer query and the subquery). -/
def todaysPosterRows (db : List KJRow) (d : Nat) : List KJRow :=
  db.filter (fun r => inCurrentDay d r && posterNonEmpty r)

/-- `COUNT(DISTINCT title)` for the rows of one poster profile (SQL
`COUNT(DISTINCT ...)` ignores NULLs). -/
def distinctTitleCount (rows : List KJRow) (p : String) : Nat :=
  (((rows.filter (fun r => r.posted_by_profile == some p)).filterMap KJRow.title).dedup).length

/-- The `HAVING COUNT(DISTINCT title) > 2` membership test of the correlated
subquery. -/
def isHighVolumePoster (db : List KJRow) (d : Nat) (p : String) : Bool :=
  decide (distinctTitleCount (todaysPosterRows db d) p > 2)

def chLt (a b : Char) : Bool := decide (a.toNat < b.toNat)

/-- Lexicographic text ordering used to model the SQL collation for
`ORDER BY`. -/
def strLt : List Char → List Char → Bool
  | [], [] => false
  | [], _ :: _ => true
  | _ :: _, [] => false
  | a :: as, b :: bs => if a = b then strLt as bs else chLt a b

def strLe (a b : String) : Bool := !(strLt b.toList a.toList)

/-- SQL ascending order on a nullable text column: NULLS LAST. -/
def optStrLe : Option String → Option String → Bool
  | none, none => true
  | none, some _ => false
  | some _, none => true
  | some a, some b => strLe a b

/-- The sort key of `ORDER BY posted_by_profile, title`. -/
def rowLe (r s : KJRow) : Bool :=
  if r.posted_by_profile = s.posted_by_profile then optStrLe r.title s.title
  else optStrLe r.posted_by_profile s.posted_by_profile

def insertRow (x : KJRow) : List KJRow → List KJRow
  | [] => [x]
  | y :: ys => if rowLe x y then x :: y :: ys else y :: insertRow x ys

def sortRows : List KJRow → List KJRow
  | [] => []
  | x :: xs => insertRow x (sortRows xs)

/-- The SQL text executed by `get_linkedin_job_postings`, exactly as in the
source: a fixed string that mentions no Python value. -/
def linkedinQuerySQL : String :=
  "SELECT company, title, posted_by_profile, poster_full_name, url, company_url, source " ++
  "FROM public.karmafy_job " ++
  "WHERE \"ingestedAt\" >= CURRENT_DATE " ++
  "AND \"ingestedAt\" < CURRENT_DATE + INTERVAL \x271 day\x27 " ++
  "AND posted_by_profile IS NOT NULL " ++
  "AND posted_by_profile <> \x27\x27 " ++
  "AND posted_by_profile IN (" ++
  "SELECT posted_by_profile FROM public.karmafy_job " ++
  "WHERE \"ingestedAt\" >= CURRENT_DATE " ++
  "AND \"ingestedAt\" < CURRENT_DATE + INTERVAL \x271 day\x27 " ++
  "AND posted_by_profile IS NOT NULL AND posted_by_profile <> \x27\x27 " ++
  "GROUP BY posted_by_profile HAVING COUNT(DISTINCT title) > 2) " ++
  "ORDER BY posted_by_profile, title"

/-- The (query text, bind values) pair handed to `cursor.execute`: the source
calls `cursor.execute(query)` with the constant text and no parameter list,
regardless of `target_date`. -/
def executedQuery (_target_date : Option String) : String × List String :=
  (linkedinQuerySQL, [])

/-- Server-side evaluation of the SQL query against the table contents `db`
with the current day `d` of the server: WHERE filter, correlated `HAVING` subquery,
and `ORDER BY posted_by_profile, title`. -/
def runLinkedinQuery (db : List KJRow) (d : Nat) : List Job :=
  let rows := todaysPosterRows db d
  let selected := rows.filter (fun r =>
    match r.posted_by_profile with
    | some p => isHighVolumePoster db d p
    | none => false)
  (sortRows selected).map KJRow.toJob

/-- External state a call of `get_linkedin_job_postings` interacts with:
whether `psycopg2.connect` succeeds, whether query execution raises
`psycopg2.Error`, the table contents, the current day of the database server, and
the process-local `datetime.now()` date string used for the `target_date`
default. -/
structure DbWorld where
  connectOk : Bool
  queryFails : Bool
  db : List KJRow
  currentDate : Nat
  todayStr : String

/-- Connection lifecycle events of one call. -/
inductive DbEvent where
  | connOpened : DbEvent
  | connClosed : DbEvent
deriving DecidableEq

/-- `get_linkedin_job_postings(target_date=None)`.  The connection is opened
first (`get_db_connection`, raising on failure before any row is read); the
`try`/`except psycopg2.Error`/`finally` block then executes the constant
query and closes the connection on both the success and the error path.  The
computed `target_date` default is dead: the executed SQL never uses it. -/
def get_linkedin_job_postings (w : DbWorld) (target_date : Option String) :
    Except String (List Job) × List DbEvent :=
  if w.connectOk then
    let _effective_date := target_date.getD w.todayStr
    if w.queryFails then
      (Except.error "Database query failed", [DbEvent.connOpened, DbEvent.connClosed])
    else
      (Except.ok (runLinkedinQuery w.db w.currentDate),
        [DbEvent.connOpened, DbEvent.connClosed])
  else
    (Except.error "Database connection failed", [])

/-- What the Azure AD token endpoint returned for one POST: the HTTP success
flag (`res.ok`) and the `access_token` field of the JSON body (`None` when the
key is absent or null). -/
structure TokenResponse where
  ok : Bool
  access_token : Option String
deriving DecidableEq

/-- `get_access_token()`: raises (HTTP 500 detail strings) when the token
endpoint response is not successful, or when the body has no truthy
`access_token` (absent, null or empty string); otherwise returns the token. -/
def get_access_token (res : TokenResponse) : Except String String :=
  if res.ok then
    match res.access_token with
    | none => Except.error "No access token received from Azure AD"
    | some t =>
      if t = "" then Except.error "No access token received from Azure AD"
      else Except.ok t
  else
    Except.error "Failed to get access token from Azure AD"

def b64Alphabet : List Char :=
  "ABCDEFGHIJKLMNOPQRSTUVWXYZabcdefghijklmnopqrstuvwxyz0123456789+/".toList

def b64Char (n : Nat) : Char := b64Alphabet.getD n 'A'

/-- RFC 4648 base64 of a byte sequence, as `base64.b64encode(...).decode(\x27ascii\x27)`
produces it (with `=` padding and no line breaks). -/
def b64encode : List Nat → String
  | [] => ""
  | [a] =>
    String.mk [b64Char (a / 4 % 64), b64Char (a % 4 * 16 % 64)] ++ "=="
  | [a, b] =>
    String.mk [b64Char (a / 4 % 64), b64Char ((a % 4 * 16 + b / 16) % 64),
      b64Char (b % 16 * 4 % 64)] ++ "="
  | a :: b :: c :: rest =>
    String.mk [b64Char (a / 4 % 64), b64Char ((a % 4 * 16 + b / 16) % 64),
      b64Char ((b % 16 * 4 + c / 64) % 64), b64Char (c % 64)] ++ b64encode rest

/-- `os.path.basename` for the POSIX paths this service produces. -/
def basename (p : String) : String := (pySplitStr '/' p).getLastD ""

/-- One entry of the `attachments` array of the Graph sendMail payload
(`@odata.type` is the constant `#microsoft.graph.fileAttachment`). -/
structure FileAttachment where
  name : String
  contentType : String
  contentBytes : String
deriving DecidableEq

/-- The JSON payload POSTed to `/users/{SENDER_EMAIL}/sendMail`.
`ccRecipients` and `attachments` are `Option` because the corresponding keys
are only inserted into the dict on some paths. -/
structure GraphPayload where
  subject : String
  bodyContentType : String
  bodyContent : String
  toRecipients : List String
  ccRecipients : Option (List String)
  attachments : Option (List FileAttachment)
  saveToSentItems : Bool
deriving DecidableEq

/-- Log lines `send_mail_via_graph` can print while assembling the payload. -/
inductive LogEvent where
  | warnOversize : LogEvent
  | attachmentAdded : String → LogEvent
  | warnAttachmentNotFound : String → LogEvent
  | infoNoAttachment : LogEvent
deriving DecidableEq

/-- Payload assembly of `send_mail_via_graph` (everything between the token
call and the POST): base message with one `toRecipients` entry; `ccRecipients`
added only when `cc and len(cc) > 0`; `attachments` added only when
`attachment_path and os.path.exists(attachment_path)`, base64-encoding the
file bytes, warning (non-fatally) when they exceed 4MB, and attaching with
the explicit spreadsheet MIME type.  `fs` maps a path to the bytes of an
existing file, `none` when no such file exists. -/
def buildGraphPayload (fs : String → Option (List Nat)) (toAddr subject html : String)
    (cc : Option (List String)) (attachment_path : Option String) :
    GraphPayload × List LogEvent :=
  let base : GraphPayload :=
    { subject := subject, bodyContentType := "HTML", bodyContent := html,
      toRecipients := [toAddr], ccRecipients := none, attachments := none,
      saveToSentItems := true }
  let withCc :=
    match cc with
    | some l => if l.length > 0 then { base with ccRecipients := some l } else base
    | none => base
  match attachment_path with
  | some p =>
    if p = "" then
      (withCc, [LogEvent.infoNoAttachment])
    else
      match fs p with
      | some file_content =>
        let file_base64 := b64encode file_content
        let filename := basename p
        let att : FileAttachment :=
          { name := filename,
            contentType := "application/vnd.openxmlformats-officedocument.spreadsheetml.sheet",
            contentBytes := file_base64 }
        ({ withCc with attachments := some [att] },
          (if file_content.length > 4 * 1024 * 1024 then [LogEvent.warnOversize] else []) ++
            [LogEvent.attachmentAdded filename])
      | none => (withCc, [LogEvent.warnAttachmentNotFound p])
  | none => (withCc, [LogEvent.infoNoAttachment])

/-- Observable outcome of one `send_mail_via_graph` call: how many token
requests were issued, which sendMail POSTs were attempted, what was logged,
and the Python-level result (`error` = exception raised). -/
structure SendOutcome where
  tokensRequested : Nat
  posts : List GraphPayload
  logs : List LogEvent
  result : Except String Unit

/-- `send_mail_via_graph(to, subject, html, cc, attachment_path)`: acquires a
token first (propagating its exception, in which case no POST happens), builds
the payload, POSTs it, and raises when the POST response is not successful
(`graphOk` is the success flag of that external response). -/
def send_mail_via_graph (tokenRes : TokenResponse) (graphOk : Bool)
    (fs : String → Option (List Nat)) (toAddr subject html : String)
    (cc : Option (List String)) (attachment_path : Option String) : SendOutcome :=
  match get_access_token tokenRes with
  | Except.error e => { tokensRequested := 1, posts := [], logs := [], result := Except.error e }
  | Except.ok _ =>
    let built := buildGraphPayload fs toAddr subject html cc attachment_path
    { tokensRequested := 1, posts := [built.1], logs := built.2,
      result := if graphOk then Except.ok () else
        Except.error "Failed to send email via Microsoft Graph" }

/-- The values `datetime.now()` renders to in the strings the module builds:
`%Y-%m-%d`, `%Y-%m-%d %H:%M IST`, `%Y-%m-%d_%H%M%S` and `.year`. -/
structure Now where
  dateStr : String
  dateTimeStr : String
  timestampStr : String
  year : Nat

/-- The per-row local variables of the template loop: every field defaulted
through `job.get(..., default) or default`. -/
structure ResolvedJobFields where
  company : String
  title : String
  url : String
  company_url : String
  poster_full_name : String
  posted_by_profile : String
  source : String
deriving DecidableEq

/-- Lines 328-334 of the source: placeholder substitution for every field of
one record (`N/A` for text fields, `#` for link fields). -/
def resolveJobFields (job : Job) : ResolvedJobFields :=
  { company := getOr job.company "N/A",
    title := getOr job.title "N/A",
    url := getOr job.url "#",
    company_url := getOr job.company_url "#",
    poster_full_name := getOr job.poster_full_name "N/A",
    posted_by_profile := getOr job.posted_by_profile "#",
    source := getOr job.source "N/A" }

/-- One `<tr>` block of the report table (the f-string appended to
`jobs_rows` for `(idx, job)`). -/
def buildJobRow (idx : Nat) (job : Job) : String :=
  let f := resolveJobFields job
  "\n        <tr style=\"border-bottom: 1px solid #e5e7eb;\">\n            <td style=\"padding: 10px 8px; text-align: center; color: #6b7280; font-weight: 600; font-size: 13px;\">" ++
  toString idx ++
  "</td>\n            <td style=\"padding: 10px 8px; color: #111827; font-weight: 600; font-size: 13px;\">\n                <a href=\"" ++
  f.company_url ++
  "\" target=\"_blank\" style=\"color: #2563eb; text-decoration: none;\">" ++
  f.company ++
  "</a>\n            </td>\n            <td style=\"padding: 10px 8px; color: #111827; font-size: 13px;\">\n                <a href=\"" ++
  f.url ++
  "\" target=\"_blank\" style=\"color: #059669; text-decoration: none; font-weight: 500;\">" ++
  f.title ++
  "</a>\n            </td>\n            <td style=\"padding: 10px 8px; color: #5b21b6; font-weight: 600; font-size: 13px;\">\n                <a href=\"" ++
  f.posted_by_profile ++
  "\" target=\"_blank\" style=\"color: #5b21b6; text-decoration: none;\">" ++
  f.poster_full_name ++
  "</a>\n            </td>\n            <td style=\"padding: 10px 8px; text-align: center; color: #6b7280; font-size: 12px; text-transform: uppercase;\">" ++
  f.source ++
  "</td>\n        </tr>\n        "

/-- The `for idx, job in enumerate(jobs_data, 1)` accumulation of `jobs_rows`. -/
def jobsRowsAux : Nat → List Job → String
  | _, [] => ""
  | idx, j :: rest => buildJobRow idx j ++ jobsRowsAux (idx + 1) rest

def jobsRows (jobs_data : List Job) : String := jobsRowsAux 1 jobs_data

/-- `excel_filepath.split(chr(92))[-1] if excel_filepath else ...`: display
name of the attached workbook inside the email body. -/
def excelDisplayName (excel_filepath : String) : String :=
  if excel_filepath = "" then "Excel Report"
  else (pySplitStr '\\' excel_filepath).getLastD ""

def tplDoc1 : String :=
  "<!DOCTYPE html>\n<html lang=\"en\">\n<head>\n  <meta charSet=\"UTF-8\" />\n  <title>"

def tplDoc2 : String :=
  " – Daily Report</title>\n  <meta name=\"viewport\" content=\"width=device-width, initial-scale=1\" />\n  <style>\n" ++
  "    body \x7b\n      margin: 0;\n      padding: 0;\n      background-color: #f3f4f6;\n      font-family: system-ui, -apple-system, BlinkMacSystemFont, \"Segoe UI\", sans-serif;\n      color: #111827;\n    \x7d\n" ++
  "    .container \x7b\n      max-width: 1100px;\n      margin: 32px auto;\n      background: #ffffff;\n      border-radius: 16px;\n      overflow: hidden;\n      box-shadow: 0 18px 45px rgba(15, 23, 42, 0.12);\n    \x7d\n" ++
  "    .header \x7b\n      background: linear-gradient(135deg, #0a66c2, #0077b5);\n      padding: 24px 32px;\n      color: white;\n      text-align: left;\n    \x7d\n" ++
  "    .title \x7b\n      margin-top: 10px;\n      font-size: 24px;\n      font-weight: 700;\n      color: white;\n    \x7d\n" ++
  "    .sub \x7b\n      margin-top: 6px;\n      font-size: 14px;\n      opacity: 0.9;\n      color: white;\n    \x7d\n" ++
  "    .body \x7b\n      padding: 24px 32px 32px;\n      font-size: 14px;\n      line-height: 1.6;\n    \x7d\n" ++
  "    .info-box \x7b\n      background-color: #eff6ff;\n      border-left: 4px solid #0a66c2;\n      padding: 16px;\n      margin: 20px 0;\n      border-radius: 8px;\n    \x7d\n" ++
  "    .table-wrapper \x7b\n      overflow-x: auto;\n      margin: 20px 0;\n    \x7d\n" ++
  "    table \x7b\n      width: 100%;\n      min-width: 800px;\n      border-collapse: collapse;\n      background: white;\n      border: 1px solid #e5e7eb;\n      border-radius: 8px;\n      overflow: hidden;\n    \x7d\n" ++
  "    th \x7b\n      background: #f9fafb;\n      padding: 12px 8px;\n      text-align: left;\n      font-weight: 700;\n      font-size: 11px;\n      text-transform: uppercase;\n      letter-spacing: 0.03em;\n      color: #6b7280;\n      border-bottom: 2px solid #e5e7eb;\n      white-space: nowrap;\n    \x7d\n" ++
  "    td \x7b\n      padding: 10px 8px;\n      font-size: 13px;\n      border-bottom: 1px solid #f3f4f6;\n    \x7d\n" ++
  "    th:nth-child(1), th:nth-child(5) \x7b\n      text-align: center;\n    \x7d\n" ++
  "    td:nth-child(1), td:nth-child(5) \x7b\n      text-align: center;\n    \x7d\n" ++
  "    .footer \x7b\n      padding: 16px 32px 24px;\n      font-size: 11px;\n      color: #9ca3af;\n      text-align: center;\n    \x7d\n" ++
  "    .cta-button \x7b\n      display: inline-block;\n      margin-top: 18px;\n      padding: 12px 24px;\n      background: linear-gradient(135deg, #0a66c2, #0077b5);\n      color: white !important;\n      text-decoration: none;\n      border-radius: 999px;\n      font-weight: 600;\n      font-size: 14px;\n    \x7d\n" ++
  "    a \x7b\n      color: #0a66c2;\n      text-decoration: none;\n    \x7d\n" ++
  "    a:hover \x7b\n      text-decoration: underline;\n    \x7d\n" ++
  "  </style>\n</head>\n<body>\n  <div class=\"container\">\n    <div class=\"header\">\n      <div class=\"title\">📊 LinkedIn Job Postings Report</div>\n      <div class=\"sub\">\n        "

def tplDoc3 : String :=
  " from high-volume posters (3+ jobs today)\n      </div>\n    </div>\n    <div class=\"body\">\n      <p>Hi Team,</p>\n      <p>\n        This is your daily automated report of <strong>"

def tplDoc4 : String :=
  "</strong> from high-volume posters who have posted more than 2 jobs today.\n      </p>\n\n" ++
  "      <div class=\"info-box\">\n        <strong>ℹ️ Report Details:</strong> This report includes all jobs from poster profiles that have posted <strong>more than 2 jobs today</strong>. These high-volume posters may be recruiters or hiring managers with multiple open positions.\n      </div>\n\n" ++
  "      <div style=\"background: linear-gradient(135deg, #0a66c2, #0077b5); padding: 24px; border-radius: 12px; margin: 24px 0; text-align: center;\">\n        <h3 style=\"color: white; margin: 0 0 12px 0;\">📎 Excel Report Attached</h3>\n        <p style=\"color: white; opacity: 0.95; margin: 0 0 16px 0; font-size: 14px;\">\n          All "

def tplDoc5 : String :=
  " job postings are available in the attached Excel file\n        </p>\n        <div style=\"display: inline-block; padding: 14px 32px; background: white; color: #0a66c2; border-radius: 999px; font-weight: 700; font-size: 15px; box-shadow: 0 4px 12px rgba(0,0,0,0.15);\">\n          📊 "

def tplDoc6 : String :=
  "\n        </div>\n        <p style=\"color: white; opacity: 0.85; margin: 12px 0 0 0; font-size: 12px;\">\n          Check your email attachments to download the file\n        </p>\n      </div>\n\n      <h3 style=\"color: #111827; margin-top: 24px;\">All Job Postings ("

def tplDoc7 : String :=
  " Jobs)</h3>\n      \n      <div class=\"table-wrapper\">\n        <table>\n          <thead>\n            <tr>\n              <th>#</th>\n              <th>Company</th>\n              <th>Job Title</th>\n              <th>Posted By</th>\n              <th>Source</th>\n            </tr>\n          </thead>\n          <tbody>\n            "

def tplDoc8 : String :=
  "\n          </tbody>\n        </table>\n      </div>\n\n      <p style=\"margin-top: 16px; padding: 12px; background: #f0fdf4; border-left: 4px solid #10b981; color: #065f46; font-size: 13px; border-radius: 4px;\">\n        ✅ <strong>Table Complete:</strong> Showing all "

def tplDoc9 : String := " job postings above (rows 1-"

def tplDoc10 : String :=
  ")\n      </p>\n\n      <p style=\"margin-top: 24px; color: #6b7280; font-size: 13px;\">\n        <strong>Quick Stats:</strong>\n      </p>\n      <ul style=\"color: #6b7280; font-size: 13px;\">\n        <li>Total job postings: "

def tplDoc11 : String :=
  "</li>\n        <li>Filter criteria: Poster profiles with 3+ jobs posted today</li>\n        <li>All postings include poster profile information</li>\n        <li>Posted date: "

def tplDoc12 : String := "</li>\n      </ul>\n\n      <a href=\""

def tplDoc13 : String :=
  "\" class=\"cta-button\" target=\"_blank\" rel=\"noopener noreferrer\">\n        View Dashboard\n      </a>\n\n      <p style=\"margin-top: 24px; color: #9ca3af; font-size: 12px;\">\n        This is an automated notification from "

def tplDoc14 : String := ". Generated on "

def tplDoc15 : String :=
  ".\n      </p>\n    </div>\n    <div class=\"footer\">\n      © "

def tplDoc16 : String := " "

def tplDoc17 : String :=
  ". All rights reserved.\n    </div>\n  </div>\n</body>\n</html>\n"

/-- `build_job_postings_email_template(app_name, jobs_data, excel_filepath,
support_url)`: renders the HTML report, interpolating `len(jobs_data)` and the
defaulted row fields into the literal skeleton above. -/
def build_job_postings_email_template (app_name : String) (jobs_data : List Job)
    (excel_filepath : String) (support_url : String) (now : Now) : String :=
  let jobs_rows := jobsRows jobs_data
  let countStr := toString jobs_data.length
  tplDoc1 ++ app_name ++ tplDoc2 ++ countStr ++ " job posting(s)" ++ tplDoc3 ++
  countStr ++ " job posting(s)" ++ tplDoc4 ++ countStr ++ tplDoc5 ++
  excelDisplayName excel_filepath ++ tplDoc6 ++ countStr ++ tplDoc7 ++ jobs_rows ++
  tplDoc8 ++ countStr ++ tplDoc9 ++ countStr ++ tplDoc10 ++ countStr ++ tplDoc11 ++
  now.dateStr ++ tplDoc12 ++ support_url ++ tplDoc13 ++ app_name ++ tplDoc14 ++
  now.dateTimeStr ++ tplDoc15 ++ toString now.year ++ tplDoc16 ++ app_name ++ tplDoc17

/-- One row of the Excel sheet prepared by `export_jobs_to_excel` (the
defaulted dict appended to `excel_data`). -/
structure ExcelRow where
  idx : Nat
  company : String
  jobTitle : String
  postedBy : String
  profileUrl : String
  jobUrl : String
  companyUrl : String
  source : String
deriving DecidableEq

def excelRowOf (idx : Nat) (job : Job) : ExcelRow :=
  { idx := idx,
    company := getOr job.company "N/A",
    jobTitle := getOr job.title "N/A",
    postedBy := getOr job.poster_full_name "N/A",
    profileUrl := getOr job.posted_by_profile "",
    jobUrl := getOr job.url "",
    companyUrl := getOr job.company_url "",
    source := getOr job.source "N/A" }

/-- `export_jobs_to_excel(jobs_data)`: writes the workbook (spreadsheet
library, external) under `EXPORTS_DIR` and returns the timestamped file
path. -/
def export_jobs_to_excel (_jobs_data : List Job) (timestampStr : String) : String :=
  "exports/linkedin_jobs_" ++ timestampStr ++ ".xlsx"

/-- Module-level state after a successful import of the module: the validated
configuration constants, plus the FastAPI app with its routes (which are only
created after the validation passed). -/
structure Config where
  TENANT_ID : String
  CLIENT_ID : String
  CLIENT_SECRET : String
  SENDER_EMAIL : String
  DATABASE_URL : String
  APP_NAME : String
  TEST_EMAIL_RECIPIENT : String
  CC_EMAIL_RECIPIENTS : List String
  appCreated : Bool
  endpoints : List String
deriving DecidableEq

/-- `[email.strip() for email in CC_RECIPIENTS_STR.split(",") if email.strip()]`. -/
def parseCcRecipients (s : String) : List String :=
  ((pySplitStr ',' s).map (fun e => pyStrip e)).filter (fun e => e != "")

/-- The module-level statements run at import time, in source order: read the
environment, validate the Azure credentials (`raise ValueError` when any is
falsy), validate `DATABASE_URL`, then bind the remaining constants and create
the FastAPI app with its two endpoints.  `env` is `os.getenv` (`none` when the
variable is unset). -/
def moduleInit (env : String → Option String) : Except String Config :=
  let tenantId := env "AZURE_TENANT_ID"
  let clientId := env "AZURE_CLIENT_ID"
  let clientSecret := env "AZURE_CLIENT_SECRET"
  let senderEmail := (env "SENDER_EMAIL").getD "support@applywizz.com"
  if truthyOpt tenantId && truthyOpt clientId && truthyOpt clientSecret then
    let databaseUrl := env "DATABASE_URL"
    if truthyOpt databaseUrl then
      Except.ok
        { TENANT_ID := tenantId.getD "",
          CLIENT_ID := clientId.getD "",
          CLIENT_SECRET := clientSecret.getD "",
          SENDER_EMAIL := senderEmail,
          DATABASE_URL := databaseUrl.getD "",
          APP_NAME := "LinkedIn Job Postings Report",
          TEST_EMAIL_RECIPIENT := "bhanutejathouti@gmail.com",
          CC_EMAIL_RECIPIENTS := parseCcRecipients ((env "CC_EMAIL_RECIPIENTS").getD ""),
          appCreated := true,
          endpoints := ["/get-linkedin-jobs", "/"] }
    else
      Except.error ("Missing required DATABASE_URL environment variable. " ++
        "Please set it in your .env file.")
  else
    Except.error ("Missing required Azure AD credentials. Please set the following environment variables:\n" ++
      "  - AZURE_TENANT_ID\n  - AZURE_CLIENT_ID\n  - AZURE_CLIENT_SECRET")

/-- The JSON object a successful handler invocation returns.  Keys that only
some return statements include are `Option`. -/
structure HandlerResponse where
  success : Bool
  message : String
  jobs_count : Nat
  jobs : Option (List Job)
  email_sent : Bool
  email_sent_to : Option String
  excel_file : Option String
deriving DecidableEq

/-- Everything observable about one invocation of the
`POST /get-linkedin-jobs` handler. -/
structure HandlerOutcome where
  response : Except String HandlerResponse
  sends : List GraphPayload
  tokensRequested : Nat
  logs : List LogEvent
  dbEvents : List DbEvent

/-- The handler `get_linkedin_jobs()`: query (with `target_date=None`); on an
empty result, return the zero-count response without touching mail or token
endpoints; otherwise export the workbook, build subject and HTML, and send one
email to `TEST_EMAIL_RECIPIENT` with the configured CC list and the workbook
attached.  `xlsxBytes` stands for the bytes the spreadsheet library wrote,
`tokenRes`/`graphOk` for the two external HTTP responses. -/
def get_linkedin_jobs (cfg : Config) (w : DbWorld) (tokenRes : TokenResponse)
    (graphOk : Bool) (now : Now) (xlsxBytes : List Job → List Nat) : HandlerOutcome :=
  let r := get_linkedin_job_postings w none
  match r.1 with
  | Except.error e =>
    { response := Except.error e, sends := [], tokensRequested := 0, logs := [],
      dbEvents := r.2 }
  | Except.ok job_postings =>
    if job_postings = [] then
      { response := Except.ok
          { success := true,
            message := "No high-volume posters found today (no profiles with 3+ job postings)!",
            jobs_count := 0, jobs := none, email_sent := false,
            email_sent_to := none, excel_file := none },
        sends := [], tokensRequested := 0, logs := [], dbEvents := r.2 }
    else
      let excel_filepath := export_jobs_to_excel job_postings now.timestampStr
      let fs : String → Option (List Nat) := fun q =>
        if q = excel_filepath then some (xlsxBytes job_postings) else none
      let subject := cfg.APP_NAME ++ ": " ++ toString job_postings.length ++
        " Job(s) from High-Volume Posters - " ++ now.dateStr
      let html := build_job_postings_email_template cfg.APP_NAME job_postings
        excel_filepath "https://dashboard.apply-wizz.com/" now
      let so := send_mail_via_graph tokenRes graphOk fs cfg.TEST_EMAIL_RECIPIENT
        subject html (some cfg.CC_EMAIL_RECIPIENTS) (some excel_filepath)
      match so.result with
      | Except.error e =>
        { response := Except.error e, sends := so.posts,
          tokensRequested := so.tokensRequested, logs := so.logs, dbEvents := r.2 }
      | Except.ok _ =>
        { response := Except.ok
            { success := true,
              message := "Found " ++ toString job_postings.length ++
                " job posting(s) from high-volume posters - email sent with Excel report",
              jobs_count := job_postings.length, jobs := some job_postings,
              email_sent := true, email_sent_to := some cfg.TEST_EMAIL_RECIPIENT,
              excel_file := some excel_filepath },
          sends := so.posts, tokensRequested := so.tokensRequested,
          logs := so.logs, dbEvents := r.2 }

/-! ## Theorems -/

/-- Projections of the payload `buildGraphPayload` assembles: the base message
fields are never overwritten by the CC/attachment steps. -/
theorem buildGraphPayload_base (fs : String → Option (List Nat))
    (toAddr subject html : String) (cc : Option (List String)) (ap : Option String) :
    ((buildGraphPayload fs toAddr subject html cc ap).1).toRecipients = [toAddr] ∧
    ((buildGraphPayload fs toAddr subject html cc ap).1).subject = subject ∧
    ((buildGraphPayload fs toAddr subject html cc ap).1).bodyContent = html ∧
    ((buildGraphPayload fs toAddr subject html cc ap).1).bodyContentType = "HTML" ∧
    ((buildGraphPayload fs toAddr subject html cc ap).1).saveToSentItems = true ∧
    ((buildGraphPayload fs toAddr subject html cc ap).1).ccRecipients =
      (match cc with
        | some l => if l.length > 0 then some l else none
        | none => none) := by
  unfold buildGraphPayload
  rcases cc with _ | l <;> rcases ap with _ | p
  · simp
  · by_cases hp : p = ""
    · simp [hp]
    · rcases hfs : fs p with _ | content <;> simp [hp, hfs]
  · by_cases hl : l.length > 0 <;> simp [hl]
  · by_cases hp : p = "" <;> by_cases hl : l.length > 0
    · simp [hp, hl]
    · simp [hp, hl]
    · rcases hfs : fs p with _ | content <;> simp [hp, hfs, hl]
    · rcases hfs : fs p with _ | content <;> simp [hp, hfs, hl]

/-- Claim C4: for every record, a missing/null field is substituted by its
placeholder (`N/A` for text columns, `#` for link columns) by the per-row
defaulting of the template, and the template is a total function returning an HTML
string for any list containing the record (no exception is raised). -/
theorem claim_C4 (job : Job) :
    (job.company = none → (resolveJobFields job).company = "N/A") ∧
    (job.title = none → (resolveJobFields job).title = "N/A") ∧
    (job.url = none → (resolveJobFields job).url = "#") ∧
    (job.company_url = none → (resolveJobFields job).company_url = "#") ∧
    (job.poster_full_name = none → (resolveJobFields job).poster_full_name = "N/A") ∧
    (job.posted_by_profile = none → (resolveJobFields job).posted_by_profile = "#") ∧
    (job.source = none → (resolveJobFields job).source = "N/A") ∧
    (∀ (app_name excel_filepath support_url : String) (jobs : List Job) (now : Now),
      ∃ html : String,
        build_job_postings_email_template app_name (job :: jobs) excel_filepath
          support_url now = html) := by
  refine ⟨?_, ?_, ?_, ?_, ?_, ?_, ?_, ?_⟩
  · intro h; simp [resolveJobFields, getOr, h]
  · intro h; simp [resolveJobFields, getOr, h]
  · intro h; simp [resolveJobFields, getOr, h]
  · intro h; simp [resolveJobFields, getOr, h]
  · intro h; simp [resolveJobFields, getOr, h]
  · intro h; simp [resolveJobFields, getOr, h]
  · intro h; simp [resolveJobFields, getOr, h]
  · intro app_name excel_filepath support_url jobs now
    exact ⟨_, rfl⟩

def jobAllNone : Job :=
  { company := none, title := none, posted_by_profile := none,
    poster_full_name := none, url := none, company_url := none, source := none }

/-- Witness for C4 at a record with every field null. -/
theorem claim_C4_witness :
    (resolveJobFields jobAllNone).company = "N/A" ∧
    (resolveJobFields jobAllNone).title = "N/A" ∧
    (resolveJobFields jobAllNone).url = "#" ∧
    (resolveJobFields jobAllNone).company_url = "#" ∧
    (resolveJobFields jobAllNone).poster_full_name = "N/A" ∧
    (resolveJobFields jobAllNone).posted_by_profile = "#" ∧
    (resolveJobFields jobAllNone).source = "N/A" :=
  ⟨(claim_C4 jobAllNone).1 rfl, (claim_C4 jobAllNone).2.1 rfl,
   (claim_C4 jobAllNone).2.2.1 rfl, (claim_C4 jobAllNone).2.2.2.1 rfl,
   (claim_C4 jobAllNone).2.2.2.2.1 rfl, (claim_C4 jobAllNone).2.2.2.2.2.1 rfl,
   (claim_C4 jobAllNone).2.2.2.2.2.2.1 rfl⟩

/-- Claim C6: `get_access_token` returns the token exactly when the HTTP
response is successful and the body carries a non-empty `access_token`; in
every other case it raises. -/
theorem claim_C6 (res : TokenResponse) :
    (∀ t, res.access_token = some t → t ≠ "" → res.ok = true →
      get_access_token res = Except.ok t) ∧
    ((∃ e, get_access_token res = Except.error e) ↔
      (res.ok = false ∨ res.access_token = none ∨ res.access_token = some "")) := by
  obtain ⟨ok, tk⟩ := res
  constructor
  · intro t ht hne hok
    subst hok
    cases ht
    simp [get_access_token, hne]
  · cases ok
    · simp [get_access_token]
    · cases tk with
      | none => simp [get_access_token]
      | some t =>
        by_cases ht : t = ""
        · subst ht; simp [get_access_token]
        · simp [get_access_token, ht]

/-- Witness for C6: a successful token exchange. -/
theorem claim_C6_witness :
    get_access_token { ok := true, access_token := some "tok123" } = Except.ok "tok123" :=
  (claim_C6 { ok := true, access_token := some "tok123" }).1 "tok123" rfl (by decide) rfl

/-- Claim C8: whenever the connection is opened, it is closed again before
`get_linkedin_job_postings` returns, on the success path and on the
query-error path alike. -/
theorem claim_C8 (w : DbWorld) (target_date : Option String) (h : w.connectOk = true) :
    (get_linkedin_job_postings w target_date).2 = [DbEvent.connOpened, DbEvent.connClosed] := by
  by_cases hq : w.queryFails <;> simp [get_linkedin_job_postings, h, hq]

def wQueryFail : DbWorld :=
  { connectOk := true, queryFails := true, db := [], currentDate := 0,
    todayStr := "2025-01-01" }

/-- Witness for C8 on the query-error path. -/
theorem claim_C8_witness :
    (get_linkedin_job_postings wQueryFail none).2 = [DbEvent.connOpened, DbEvent.connClosed] :=
  claim_C8 wQueryFail none rfl

/-- Claim C9: if any required configuration value (tenant ID, client ID,
client secret, database URL) is falsy at import time, module import raises and
no module state — in particular no FastAPI app and no endpoint — is ever
created. -/
theorem claim_C9 (env : String → Option String)
    (h : truthyOpt (env "AZURE_TENANT_ID") = false ∨
      truthyOpt (env "AZURE_CLIENT_ID") = false ∨
      truthyOpt (env "AZURE_CLIENT_SECRET") = false ∨
      truthyOpt (env "DATABASE_URL") = false) :
    (∃ msg, moduleInit env = Except.error msg) ∧
    ∀ cfg : Config, moduleInit env ≠ Except.ok cfg := by
  have herr : ∃ msg, moduleInit env = Except.error msg := by
    unfold moduleInit
    rcases h with h | h | h | h
    · simp [h]
    · simp [h]
    · simp [h]
    · cases hAz : (truthyOpt (env "AZURE_TENANT_ID") && truthyOpt (env "AZURE_CLIENT_ID") &&
        truthyOpt (env "AZURE_CLIENT_SECRET"))
      · simp [hAz]
      · simp [hAz, h]
  refine ⟨herr, ?_⟩
  obtain ⟨msg, hmsg⟩ := herr
  intro cfg hcfg
  rw [hcfg] at hmsg
  exact Except.noConfusion hmsg

def envNone : String → Option String := fun _ => none

/-- Witness for C9 with an entirely unset environment. -/
theorem claim_C9_witness :
    (∃ msg, moduleInit envNone = Except.error msg) ∧
    ∀ cfg : Config, moduleInit envNone ≠ Except.ok cfg :=
  claim_C9 envNone (Or.inl rfl)

def cRow (t : String) : KJRow :=
  { company := some "Acme", title := some t, posted_by_profile := some "p",
    poster_full_name := some "Pat", url := some "https://x/j", company_url := some "https://x/c",
    source := some "linkedin", ingestedAt := 0 }

def cDb : List KJRow := [cRow "a", cRow "b", cRow "c"]

def cW1 : DbWorld :=
  { connectOk := true, queryFails := false, db := cDb, currentDate := 0,
    todayStr := "2025-01-01" }

def cW2 : DbWorld :=
  { connectOk := true, queryFails := false, db := cDb, currentDate := 1,
    todayStr := "2025-01-01" }

/-- Counterexample to claim C1 as stated: with the database contents and the
supplied `target_date` both held fixed, the returned row set still changes
when only the current date of the database server changes — so the set of rows
requested is not determined by the `target_date` argument (the code computes
the default and then ignores the value; the SQL filters on `CURRENT_DATE`). -/
theorem claim_C1_counterexample :
    (get_linkedin_job_postings cW1 (some "2020-01-01")).1 ≠
      (get_linkedin_job_postings cW2 (some "2020-01-01")).1 := by decide

/-- Claim C1 (amended): the executed query is the fixed SQL text with an empty
bind-value list — no untrusted value is interpolated — and the result of the call
is entirely independent of `target_date`: the rows requested are always those
of the `CURRENT_DATE` of the database server. -/
theorem claim_C1 (w : DbWorld) (target_date : Option String) :
    executedQuery target_date = (linkedinQuerySQL, []) ∧
    get_linkedin_job_postings w target_date = get_linkedin_job_postings w none ∧
    (get_linkedin_job_postings w target_date).1 =
      (if w.connectOk then
        (if w.queryFails then Except.error "Database query failed"
          else Except.ok (runLinkedinQuery w.db w.currentDate))
        else Except.error "Database connection failed") := by
  refine ⟨rfl, rfl, ?_⟩
  by_cases h : w.connectOk <;> by_cases hq : w.queryFails <;>
    simp [get_linkedin_job_postings, h, hq]

def envA : String → Option String := fun k =>
  if k = "RECIPIENT_EMAIL" then some "alice@example.com" else some "x"

def envB : String → Option String := fun k =>
  if k = "RECIPIENT_EMAIL" then some "bob@example.com" else some "x"

/-- Counterexample to claim C7 as stated: two startups whose environment
configuration differs in the recipient address nevertheless yield the same
(hardcoded) recipient `bhanutejathouti@gmail.com`. -/
theorem claim_C7_counterexample :
    envA "RECIPIENT_EMAIL" ≠ envB "RECIPIENT_EMAIL" ∧
    (moduleInit envA).map Config.TEST_EMAIL_RECIPIENT =
      Except.ok "bhanutejathouti@gmail.com" ∧
    (moduleInit envB).map Config.TEST_EMAIL_RECIPIENT =
      Except.ok "bhanutejathouti@gmail.com" := by
  refine ⟨by decide, by decide, by decide⟩

/-- Claim C7 (amended): the sender address and CC list are read from the
environment, but the recipient is the hardcoded constant
`bhanutejathouti@gmail.com` (`TEST_EMAIL_RECIPIENT`): every successful startup
yields that recipient, and every sendMail POST the handler makes addresses
exactly it, whatever the environment held. -/
theorem claim_C7 (env : String → Option String) (cfg : Config)
    (h : moduleInit env = Except.ok cfg) :
    cfg.TEST_EMAIL_RECIPIENT = "bhanutejathouti@gmail.com" ∧
    ∀ (w : DbWorld) (tokenRes : TokenResponse) (graphOk : Bool) (now : Now)
      (xlsxBytes : List Job → List Nat) (pay : GraphPayload),
      pay ∈ (get_linkedin_jobs cfg w tokenRes graphOk now xlsxBytes).sends →
      pay.toRecipients = ["bhanutejathouti@gmail.com"] := by
  have hrec : cfg.TEST_EMAIL_RECIPIENT = "bhanutejathouti@gmail.com" := by
    unfold moduleInit at h
    dsimp only at h
    split at h
    · split at h
      · cases h
        rfl
      · exact Except.noConfusion h
    · exact Except.noConfusion h
  refine ⟨hrec, ?_⟩
  intro w tokenRes graphOk now xlsxBytes pay hmem
  unfold get_linkedin_jobs at hmem
  dsimp only at hmem
  split at hmem
  · simp at hmem
  · split at hmem
    · simp at hmem
    · split at hmem <;>
      · unfold send_mail_via_graph at hmem
        split at hmem
        · simp at hmem
        · simp at hmem
          subst hmem
          rw [← hrec]
          exact (buildGraphPayload_base _ _ _ _ _ _).1

def envAll : String → Option String := fun _ => some "x"

def cfgAll : Config :=
  { TENANT_ID := "x", CLIENT_ID := "x", CLIENT_SECRET := "x", SENDER_EMAIL := "x",
    DATABASE_URL := "x", APP_NAME := "LinkedIn Job Postings Report",
    TEST_EMAIL_RECIPIENT := "bhanutejathouti@gmail.com",
    CC_EMAIL_RECIPIENTS := ["x"], appCreated := true,
    endpoints := ["/get-linkedin-jobs", "/"] }

/-- Witness for the amended C7 at a fully populated environment. -/
theorem claim_C7_witness :
    cfgAll.TEST_EMAIL_RECIPIENT = "bhanutejathouti@gmail.com" ∧
    ∀ (w : DbWorld) (tokenRes : TokenResponse) (graphOk : Bool) (now : Now)
      (xlsxBytes : List Job → List Nat) (pay : GraphPayload),
      pay ∈ (get_linkedin_jobs cfgAll w tokenRes graphOk now xlsxBytes).sends →
      pay.toRecipients = ["bhanutejathouti@gmail.com"] :=
  claim_C7 envAll cfgAll (by decide)

/-- Claim C2: when the query returns no rows, the handler returns the
zero-count success response (`jobs_count = 0`, `email_sent = false`) and
makes no sendMail POST and no token request. -/
theorem claim_C2 (cfg : Config) (w : DbWorld) (tokenRes : TokenResponse) (graphOk : Bool)
    (now : Now) (xlsxBytes : List Job → List Nat)
    (hconn : w.connectOk = true) (hq : w.queryFails = false)
    (hempty : runLinkedinQuery w.db w.currentDate = []) :
    (get_linkedin_jobs cfg w tokenRes graphOk now xlsxBytes).response =
      Except.ok
        { success := true,
          message := "No high-volume posters found today (no profiles with 3+ job postings)!",
          jobs_count := 0, jobs := none, email_sent := false,
          email_sent_to := none, excel_file := none } ∧
    (get_linkedin_jobs cfg w tokenRes graphOk now xlsxBytes).sends = [] ∧
    (get_linkedin_jobs cfg w tokenRes graphOk now xlsxBytes).tokensRequested = 0 := by
  simp [get_linkedin_jobs, get_linkedin_job_postings, hconn, hq, hempty]

def wEmpty : DbWorld :=
  { connectOk := true, queryFails := false, db := [], currentDate := 0,
    todayStr := "2025-01-01" }

def tok0 : TokenResponse := { ok := true, access_token := some "tok" }

def now0 : Now :=
  { dateStr := "2025-01-01", dateTimeStr := "2025-01-01 09:00 IST",
    timestampStr := "2025-01-01_090000", year := 2025 }

def xlsx0 : List Job → List Nat := fun _ => [80, 75]

/-- Witness for C2 on an empty table. -/
theorem claim_C2_witness :
    (get_linkedin_jobs cfgAll wEmpty tok0 true now0 xlsx0).response =
      Except.ok
        { success := true,
          message := "No high-volume posters found today (no profiles with 3+ job postings)!",
          jobs_count := 0, jobs := none, email_sent := false,
          email_sent_to := none, excel_file := none } ∧
    (get_linkedin_jobs cfgAll wEmpty tok0 true now0 xlsx0).sends = [] ∧
    (get_linkedin_jobs cfgAll wEmpty tok0 true now0 xlsx0).tokensRequested = 0 :=
  claim_C2 cfgAll wEmpty tok0 true now0 xlsx0 rfl rfl (by decide)

/-- The attachment entry the source builds for a file at `p` with bytes
`file_content`: base name, explicit spreadsheet MIME type, base64 content. -/
def spreadsheetAttachment (p : String) (file_content : List Nat) : FileAttachment :=
  { name := basename p,
    contentType := "application/vnd.openxmlformats-officedocument.spreadsheetml.sheet",
    contentBytes := b64encode file_content }

/-- Claim C5: an attachment file larger than 4MB is warned about but still
base64-encoded, attached with the explicit spreadsheet MIME type, and the
sendMail POST is still made; oversize alone never produces an error. -/
theorem claim_C5 (tokenRes : TokenResponse) (tok : String) (graphOk : Bool)
    (fs : String → Option (List Nat)) (toAddr subject html : String)
    (cc : Option (List String)) (p : String) (file_content : List Nat)
    (htok : get_access_token tokenRes = Except.ok tok)
    (hp : p ≠ "") (hfs : fs p = some file_content)
    (hsize : file_content.length > 4 * 1024 * 1024) :
    LogEvent.warnOversize ∈
      (send_mail_via_graph tokenRes graphOk fs toAddr subject html cc (some p)).logs ∧
    (send_mail_via_graph tokenRes graphOk fs toAddr subject html cc (some p)).posts =
      [(buildGraphPayload fs toAddr subject html cc (some p)).1] ∧
    ((buildGraphPayload fs toAddr subject html cc (some p)).1).attachments =
      some [spreadsheetAttachment p file_content] ∧
    (graphOk = true →
      (send_mail_via_graph tokenRes graphOk fs toAddr subject html cc (some p)).result =
        Except.ok ()) := by
  have hpay :
      (buildGraphPayload fs toAddr subject html cc (some p)).2 =
        [LogEvent.warnOversize, LogEvent.attachmentAdded (basename p)] ∧
      ((buildGraphPayload fs toAddr subject html cc (some p)).1).attachments =
        some [spreadsheetAttachment p file_content] := by
    unfold buildGraphPayload spreadsheetAttachment
    rcases cc with _ | l
    · simp [hp, hfs, hsize]
    · by_cases hl : l.length > 0 <;> simp [hp, hfs, hsize, hl]
  refine ⟨?_, ?_, hpay.2, ?_⟩
  · simp [send_mail_via_graph, htok, hpay.1]
  · simp [send_mail_via_graph, htok]
  · intro hg
    simp [send_mail_via_graph, htok, hg]

def bigBytes : List Nat := List.replicate (4 * 1024 * 1024 + 1) 0

def bigFs : String → Option (List Nat) := fun _ => some bigBytes

/-- Witness for C5 with a file one byte over the 4MB limit. -/
theorem claim_C5_witness :
    LogEvent.warnOversize ∈
      (send_mail_via_graph tok0 true bigFs "a@b.com" "subj" "<p>h</p>" none
        (some "exports/big.xlsx")).logs ∧
    (send_mail_via_graph tok0 true bigFs "a@b.com" "subj" "<p>h</p>" none
        (some "exports/big.xlsx")).posts =
      [(buildGraphPayload bigFs "a@b.com" "subj" "<p>h</p>" none (some "exports/big.xlsx")).1] ∧
    ((buildGraphPayload bigFs "a@b.com" "subj" "<p>h</p>" none (some "exports/big.xlsx")).1).attachments =
      some [spreadsheetAttachment "exports/big.xlsx" bigBytes] ∧
    (true = true →
      (send_mail_via_graph tok0 true bigFs "a@b.com" "subj" "<p>h</p>" none
        (some "exports/big.xlsx")).result = Except.ok ()) :=
  claim_C5 tok0 "tok" true bigFs "a@b.com" "subj" "<p>h</p>" none "exports/big.xlsx"
    bigBytes rfl (by decide) rfl
    (by simp only [bigBytes, List.length_replicate]; omega)

/-- Claim C10: a non-empty `attachment_path` naming no existing file makes
`send_mail_via_graph` log a not-found warning, build the message without an
`attachments` key, and still perform the sendMail POST. -/
theorem claim_C10 (tokenRes : TokenResponse) (tok : String) (graphOk : Bool)
    (fs : String → Option (List Nat)) (toAddr subject html : String)
    (cc : Option (List String)) (p : String)
    (htok : get_access_token tokenRes = Except.ok tok)
    (hp : p ≠ "") (hfs : fs p = none) :
    LogEvent.warnAttachmentNotFound p ∈
      (send_mail_via_graph tokenRes graphOk fs toAddr subject html cc (some p)).logs ∧
    (send_mail_via_graph tokenRes graphOk fs toAddr subject html cc (some p)).posts =
      [(buildGraphPayload fs toAddr subject html cc (some p)).1] ∧
    ((buildGraphPayload fs toAddr subject html cc (some p)).1).attachments = none ∧
    (graphOk = true →
      (send_mail_via_graph tokenRes graphOk fs toAddr subject html cc (some p)).result =
        Except.ok ()) := by
  have hpay :
      (buildGraphPayload fs toAddr subject html cc (some p)).2 =
        [LogEvent.warnAttachmentNotFound p] ∧
      ((buildGraphPayload fs toAddr subject html cc (some p)).1).attachments = none := by
    unfold buildGraphPayload
    rcases cc with _ | l
    · simp [hp, hfs]
    · by_cases hl : l.length > 0 <;> simp [hp, hfs, hl]
  refine ⟨?_, ?_, hpay.2, ?_⟩
  · simp [send_mail_via_graph, htok, hpay.1]
  · simp [send_mail_via_graph, htok]
  · intro hg
    simp [send_mail_via_graph, htok, hg]

def fsNone : String → Option (List Nat) := fun _ => none

/-- Witness for C10 at a path with no file behind it. -/
theorem claim_C10_witness :
    LogEvent.warnAttachmentNotFound "exports/missing.xlsx" ∈
      (send_mail_via_graph tok0 true fsNone "a@b.com" "subj" "<p>h</p>" none
        (some "exports/missing.xlsx")).logs ∧
    (send_mail_via_graph tok0 true fsNone "a@b.com" "subj" "<p>h</p>" none
        (some "exports/missing.xlsx")).posts =
      [(buildGraphPayload fsNone "a@b.com" "subj" "<p>h</p>" none (some "exports/missing.xlsx")).1] ∧
    ((buildGraphPayload fsNone "a@b.com" "subj" "<p>h</p>" none
        (some "exports/missing.xlsx")).1).attachments = none ∧
    (true = true →
      (send_mail_via_graph tok0 true fsNone "a@b.com" "subj" "<p>h</p>" none
        (some "exports/missing.xlsx")).result = Except.ok ()) :=
  claim_C10 tok0 "tok" true fsNone "a@b.com" "subj" "<p>h</p>" none
    "exports/missing.xlsx" rfl (by decide) rfl

/-- The CC list effectively carried by the message equals the configured list:
a non-empty list is embedded as-is, an empty list leaves the key out, which
reads back as the empty list. -/
theorem ccEffective (l : List String) :
    (if l.length > 0 then some l else none).getD ([] : List String) = l := by
  cases l <;> simp

/-- The rendered HTML report contains the row count followed by
" job posting(s)": explicit decomposition at the summary line of the header. -/
theorem template_reports_count (app_name : String) (jobs_data : List Job)
    (excel_filepath support_url : String) (now : Now) :
    ∃ pre post,
      build_job_postings_email_template app_name jobs_data excel_filepath support_url now =
        pre ++ (toString jobs_data.length ++ " job posting(s)") ++ post := by
  refine ⟨tplDoc1 ++ app_name ++ tplDoc2,
    tplDoc3 ++ toString jobs_data.length ++ " job posting(s)" ++ tplDoc4 ++
      toString jobs_data.length ++ tplDoc5 ++ excelDisplayName excel_filepath ++ tplDoc6 ++
      toString jobs_data.length ++ tplDoc7 ++ jobsRows jobs_data ++ tplDoc8 ++
      toString jobs_data.length ++ tplDoc9 ++ toString jobs_data.length ++ tplDoc10 ++
      toString jobs_data.length ++ tplDoc11 ++ now.dateStr ++ tplDoc12 ++ support_url ++
      tplDoc13 ++ app_name ++ tplDoc14 ++ now.dateTimeStr ++ tplDoc15 ++
      toString now.year ++ tplDoc16 ++ app_name ++ tplDoc17, ?_⟩
  simp only [build_job_postings_email_template, String.append_assoc]

/-- On a non-empty query result with a successful token exchange and a
successful Graph send response, the outcome of the handler is exactly the record
below (one POST of the built payload, one token request, success response). -/
theorem handler_nonempty_shape (cfg : Config) (w : DbWorld) (tokenRes : TokenResponse)
    (now : Now) (xlsxBytes : List Job → List Nat) (tok : String)
    (hconn : w.connectOk = true) (hq : w.queryFails = false)
    (hne : runLinkedinQuery w.db w.currentDate ≠ [])
    (htok : get_access_token tokenRes = Except.ok tok) :
    get_linkedin_jobs cfg w tokenRes true now xlsxBytes =
      (let job_postings := runLinkedinQuery w.db w.currentDate
       let excel_filepath := export_jobs_to_excel job_postings now.timestampStr
       let fs : String → Option (List Nat) := fun q =>
         if q = excel_filepath then some (xlsxBytes job_postings) else none
       let subject := cfg.APP_NAME ++ ": " ++ toString job_postings.length ++
         " Job(s) from High-Volume Posters - " ++ now.dateStr
       let html := build_job_postings_email_template cfg.APP_NAME job_postings
         excel_filepath "https://dashboard.apply-wizz.com/" now
       let built := buildGraphPayload fs cfg.TEST_EMAIL_RECIPIENT subject html
         (some cfg.CC_EMAIL_RECIPIENTS) (some excel_filepath)
       { response := Except.ok
           { success := true,
             message := "Found " ++ toString job_postings.length ++
               " job posting(s) from high-volume posters - email sent with Excel report",
             jobs_count := job_postings.length, jobs := some job_postings,
             email_sent := true, email_sent_to := some cfg.TEST_EMAIL_RECIPIENT,
             excel_file := some excel_filepath },
         sends := [built.1], tokensRequested := 1, logs := built.2,
         dbEvents := [DbEvent.connOpened, DbEvent.connClosed] }) := by
  simp [get_linkedin_jobs, get_linkedin_job_postings, send_mail_via_graph,
    hconn, hq, hne, htok]

/-- Claim C3: on a non-empty query result of n rows, the handler makes exactly
one sendMail POST whose message has exactly one recipient
(`TEST_EMAIL_RECIPIENT`), carries the configured CC list, and reports n as the
row count in the HTML body; the response has `jobs_count = n` and
`email_sent = true`. -/
theorem claim_C3 (cfg : Config) (w : DbWorld) (tokenRes : TokenResponse) (now : Now)
    (xlsxBytes : List Job → List Nat) (tok : String)
    (hconn : w.connectOk = true) (hq : w.queryFails = false)
    (hne : runLinkedinQuery w.db w.currentDate ≠ [])
    (htok : get_access_token tokenRes = Except.ok tok) :
    ∃ pay : GraphPayload,
      (get_linkedin_jobs cfg w tokenRes true now xlsxBytes).sends = [pay] ∧
      pay.toRecipients.length = 1 ∧
      pay.toRecipients = [cfg.TEST_EMAIL_RECIPIENT] ∧
      pay.ccRecipients.getD [] = cfg.CC_EMAIL_RECIPIENTS ∧
      (∃ pre post, pay.bodyContent =
        pre ++ (toString (runLinkedinQuery w.db w.currentDate).length ++
          " job posting(s)") ++ post) ∧
      ∃ resp : HandlerResponse,
        (get_linkedin_jobs cfg w tokenRes true now xlsxBytes).response = Except.ok resp ∧
        resp.jobs_count = (runLinkedinQuery w.db w.currentDate).length ∧
        resp.email_sent = true := by
  rw [handler_nonempty_shape cfg w tokenRes now xlsxBytes tok hconn hq hne htok]
  dsimp only
  refine ⟨_, rfl, ?_, ?_, ?_, ?_, ?_⟩
  · rw [(buildGraphPayload_base _ _ _ _ _ _).1]
    rfl
  · exact (buildGraphPayload_base _ _ _ _ _ _).1
  · rw [(buildGraphPayload_base _ _ _ _ _ _).2.2.2.2.2]
    exact ccEffective _
  · rw [(buildGraphPayload_base _ _ _ _ _ _).2.2.1]
    exact template_reports_count _ _ _ _ _
  · exact ⟨_, rfl, rfl, rfl⟩

/-- Witness for C3 on a table with one poster holding three distinct titles. -/
theorem claim_C3_witness :
    ∃ pay : GraphPayload,
      (get_linkedin_jobs cfgAll cW1 tok0 true now0 xlsx0).sends = [pay] ∧
      pay.toRecipients.length = 1 ∧
      pay.toRecipients = [cfgAll.TEST_EMAIL_RECIPIENT] ∧
      pay.ccRecipients.getD [] = cfgAll.CC_EMAIL_RECIPIENTS ∧
      (∃ pre post, pay.bodyContent =
        pre ++ (toString (runLinkedinQuery cW1.db cW1.currentDate).length ++
          " job posting(s)") ++ post) ∧
      ∃ resp : HandlerResponse,
        (get_linkedin_jobs cfgAll cW1 tok0 true now0 xlsx0).response = Except.ok resp ∧
        resp.jobs_count = (runLinkedinQuery cW1.db cW1.currentDate).length ∧
        resp.email_sent = true :=
  claim_C3 cfgAll cW1 tok0 now0 xlsx0 "tok" rfl rfl (by decide) rfl

end JobReport
